import Mathlib

/-!
Shallow embedding of the message-bus core of the repository:
`src/kafka_bus/client.py` (KafkaMessageBus), `src/kafka_bus/mock.py`
(InMemoryMessageBus) and `src/kafka_bus/worker.py` (KafkaWorker).

Python dynamic values are modelled by the inductive `Json` (the values
`json.loads` can return and that flow through metadata dicts: None, bool,
int, str, list, dict).  Python dicts are association lists with unique
keys in insertion order; `dictSet` models assignment (replace in place,
append new keys at the end), mirroring CPython dict semantics.

The stdlib `json.loads` is external to the repository; it is modelled as
a parameter `jsonLoads : String → Option Json` (`none` models a
`JSONDecodeError`).  `json.dumps(..., ensure_ascii=False)` is modelled
executably by `dumps` below with CPython's default separators.
-/

inductive Json where
  | null : Json
  | bool : Bool → Json
  | num : Int → Json
  | str : String → Json
  | arr : List Json → Json
  | obj : List (String × Json) → Json

abbrev PyDict := List (String × Json)

/-- `d[k]` lookup: first (and only, for well-formed dicts) binding of `k`. -/
def dictGet : PyDict → String → Option Json
  | [], _ => none
  | (k, v) :: rest, key => if k = key then some v else dictGet rest key

/-- `d[k] = v`: replace in place when the key exists, else append. -/
def dictSet : PyDict → String → Json → PyDict
  | [], key, val => [(key, val)]
  | (k, v) :: rest, key, val =>
      if k = key then (k, val) :: rest else (k, v) :: dictSet rest key val

/-- `a.update(b)` / a dict-unpacking merge such as the literal passed to
`merged.update(...)`: assign every binding of `b` into `a`, in order. -/
def dictUpdate (a b : PyDict) : PyDict :=
  b.foldl (fun acc kv => dictSet acc kv.1 kv.2) a

/-- Python truthiness of a value (`bool(x)`). -/
def pyTruthy : Json → Bool
  | Json.null => false
  | Json.bool b => b
  | Json.num n => decide (n ≠ 0)
  | Json.str s => decide (s ≠ "")
  | Json.arr xs => !xs.isEmpty
  | Json.obj fs => !fs.isEmpty

/-- `d.get(k)`: `None` when the key is absent. -/
def pyGet (d : PyDict) (key : String) : Json :=
  (dictGet d key).getD Json.null

/-- Python's short-circuiting `a or b` on values. -/
def pyOr (a b : Json) : Json :=
  if pyTruthy a then a else b

def hexDigit (n : Nat) : Char :=
  if n < 10 then Char.ofNat (48 + n) else Char.ofNat (87 + n)

/-- One character of a JSON string, escaped as CPython's `json.dumps`
with `ensure_ascii=False` does (only `"`, `\` and control characters). -/
def escapeChar (c : Char) : String :=
  if c = '"' then "\\\""
  else if c = '\\' then "\\\\"
  else if c = '\n' then "\\n"
  else if c = '\t' then "\\t"
  else if c = '\r' then "\\r"
  else if c.toNat = 8 then "\\b"
  else if c.toNat = 12 then "\\f"
  else if c.toNat < 32 then
    "\\u00" ++ String.mk [hexDigit (c.toNat / 16), hexDigit (c.toNat % 16)]
  else String.singleton c

def escapeString (s : String) : String :=
  s.data.foldl (fun acc c => acc ++ escapeChar c) ""

mutual

/-- `json.dumps(v, ensure_ascii=False)` with CPython's default
separators (a comma-space between items, a colon-space after keys). -/
def dumps : Json → String
  | Json.null => "null"
  | Json.bool true => "true"
  | Json.bool false => "false"
  | Json.num n => toString n
  | Json.str s => "\"" ++ escapeString s ++ "\""
  | Json.arr xs => "[" ++ dumpsItems xs ++ "]"
  | Json.obj fs => "\x7b" ++ dumpsFields fs ++ "\x7d"

def dumpsItems : List Json → String
  | [] => ""
  | [x] => dumps x
  | x :: y :: rest => dumps x ++ ", " ++ dumpsItems (y :: rest)

def dumpsFields : List (String × Json) → String
  | [] => ""
  | [(k, v)] => "\"" ++ escapeString k ++ "\": " ++ dumps v
  | (k, v) :: f :: rest =>
      "\"" ++ escapeString k ++ "\": " ++ dumps v ++ ", " ++ dumpsFields (f :: rest)

end

/-- `str(x)` for the values that can reach `str(message_text)` in
`_parse_payload`.  Scalars follow CPython (`str`, `None`, booleans,
ints); for containers CPython prints `repr`, which uses single quotes —
no claim reaches that branch, and we approximate it by `dumps`. -/
def pyStr : Json → String
  | Json.null => "None"
  | Json.bool true => "True"
  | Json.bool false => "False"
  | Json.num n => toString n
  | Json.str s => s
  | v => dumps v

/-!
Worker payload parsing and metadata merging, from
`src/kafka_bus/worker.py` lines 85-143 (`KafkaWorker._parse_payload`,
`KafkaWorker._merge_metadata`, `KafkaWorker._response_headers`).
-/

/-- `KafkaWorker._parse_payload` (worker.py:85-101).  Returns the
message text and the embedded metadata dict.  `jsonLoads raw = none`
models `json.loads` raising `JSONDecodeError`, which the source catches
and turns into `(raw_payload, an empty dict)`.  The Lean function is total:
the embedding has no other failure source, mirroring that the source
never lets a parse error escape. -/
def parsePayload (jsonLoads : String → Option Json) (raw : String) :
    String × PyDict :=
  match jsonLoads raw with
  | none => (raw, [])
  | some parsed =>
    match parsed with
    | Json.obj fields =>
        let messageText : Json :=
          pyOr (pyGet fields "request_text")
            (pyOr (pyGet fields "message")
              (pyOr (pyGet fields "payload") (Json.str "")))
        let metadata : PyDict :=
          match dictGet fields "metadata" with
          | some (Json.obj m) => m
          | _ => []
        if pyTruthy messageText then (pyStr messageText, metadata)
        else (dumps parsed, metadata)
    | Json.str s => (s, [])
    | other => (dumps other, [])

/-- `KafkaWorker._merge_metadata` (worker.py:103-135).  `dict(x or ...)`
over a non-mapping truthy `headers` value would raise in Python; the
transports only ever store a dict (or nothing) under `headers`, and the
embedding returns the empty dict on that dead branch. -/
def mergeMetadata (jsonLoads : String → Option Json)
    (metadata payloadMeta : PyDict) (rawPayload : String) : PyDict :=
  let headers : PyDict :=
    match pyOr (pyGet metadata "headers") (Json.obj []) with
    | Json.obj h => h
    | _ => []
  let requestId := pyOr (pyGet headers "request_id") (pyGet headers "request-id")
  let botId := pyOr (pyGet headers "bot_id") (pyGet headers "bot-id")
  let chatId := pyOr (pyGet headers "chat_id") (pyGet headers "chat-id")
  let natalRaw := pyOr (pyGet headers "natal_chart") (pyGet headers "natal-chart")
  let natal :=
    match natalRaw with
    | Json.str s =>
        match jsonLoads s with
        | some v => v
        | none => Json.str s
    | v => v
  let merged := dictUpdate metadata payloadMeta
  dictUpdate merged
    [("request_id", requestId),
     ("bot_id", botId),
     ("chat_id", chatId),
     ("natal_chart", natal),
     ("user_id", pyOr botId (pyGet merged "user_id")),
     ("session_id", pyOr chatId (pyGet merged "session_id")),
     ("input_headers", Json.obj headers),
     ("input_payload", Json.obj payloadMeta),
     ("raw_payload", Json.str rawPayload)]

/-- `KafkaWorker._response_headers` (worker.py:137-143): copy
`request_id`, `bot_id`, `chat_id` when the value `is not None`. -/
def responseHeaders (metadata : PyDict) : PyDict :=
  ["request_id", "bot_id", "chat_id"].foldl
    (fun acc key =>
      match dictGet metadata key with
      | none => acc
      | some Json.null => acc
      | some v => dictSet acc key v)
    []

/-!
The in-memory transport (`src/kafka_bus/mock.py`, `InMemoryMessageBus`)
together with the worker fields of `KafkaWorker` (worker.py:28-83).

`SysState` carries the mock bus's own state (`_running`, `_input_queue`,
`_topics`) and, alongside it, the worker fields (`_stopped`,
`_processed`) that the handler closure `KafkaWorker._handle_message`
mutates, plus the error log written by `_handle_failure`.  The bus
functions below touch only the bus fields; the worker functions touch
the worker fields and call the bus functions, exactly as in the source.

A handler passed to `consume` is modelled as
`SysState → String → PyDict → SysState × Except String Bool`:
it receives the state (it may produce or stop the bus), and either
returns a boolean or raises (`Except.error` carries the exception text).
-/

/-- A message stored in a mock topic: the serialized value and the
headers dict (mock.py:33). -/
abbrev MockEntry := String × PyDict

structure SysState where
  busRunning : Bool
  inputQueue : List (String × PyDict)
  topics : List (String × List MockEntry)
  stopped : Bool
  processed : Nat
  errorLog : List (String × String)

abbrev Handler := SysState → String → PyDict → SysState × Except String Bool

/-- `InMemoryMessageBus.start` (mock.py:25-26). -/
def mockStart (st : SysState) : SysState :=
  { st with busRunning := true }

/-- `InMemoryMessageBus.stop` (mock.py:28-29). -/
def mockStop (st : SysState) : SysState :=
  { st with busRunning := false }

/-- `self._topics[topic].append(entry)` on a `defaultdict(list)`. -/
def topicsAppend : List (String × List MockEntry) → String → MockEntry →
    List (String × List MockEntry)
  | [], t, e => [(t, [e])]
  | (k, es) :: rest, t, e =>
      if k = t then (k, es ++ [e]) :: rest
      else (k, es) :: topicsAppend rest t e

/-- `InMemoryMessageBus.produce` (mock.py:31-35): a `str` message is
stored as-is, anything else is `json.dumps`-ed; headers default to the
empty dict. -/
def mockProduce (st : SysState) (topic : String) (message : Json)
    (headers : PyDict) : SysState :=
  let payload := match message with
    | Json.str s => s
    | m => dumps m
  { st with topics := topicsAppend st.topics topic (payload, headers) }

/-- The body of one iteration of `InMemoryMessageBus.consume`
(mock.py:45-54) after the message has been popped: invoke the handler
(on a handler exception, `_handle_failure` (mock.py:69-72) logs the
error with the payload and yields `success = False`), and unless it
succeeded, push the message back to the tail of the input queue.
Returns the success flag and the resulting state. -/
def mockStep (handler : Handler) (st1 : SysState)
    (payload : String) (metadata : PyDict) : Bool × SysState :=
  let r := handler st1 payload metadata
  let outcome : Bool × SysState :=
    match r.2 with
    | Except.ok b => (b, r.1)
    | Except.error e =>
        (false, { r.1 with errorLog := r.1.errorLog ++ [(e, payload)] })
  let success := outcome.1
  let st2 := outcome.2
  (success,
    if success then st2
    else { st2 with inputQueue := st2.inputQueue ++ [(payload, metadata)] })

/-- The `while` loop of `InMemoryMessageBus.consume` (mock.py:43-57):
pop the head of the input queue, run `mockStep`, bump the loop-local
`processed` counter on success (distinct from the worker's
`_processed`), and break once the caller-supplied `max_messages` bound
is reached.  `fuel` bounds how many iterations we can observe; `none`
means the loop had not exited within `fuel` iterations. -/
def mockConsumeLoop (handler : Handler) (maxMessages : Option Nat) :
    Nat → SysState → Nat → Option SysState
  | 0, _, _ => none
  | fuel + 1, st, processed =>
    if st.busRunning then
      match st.inputQueue with
      | [] => some st
      | (payload, metadata) :: rest =>
        let s := mockStep handler { st with inputQueue := rest } payload metadata
        let processedNext := if s.1 then processed + 1 else processed
        match maxMessages with
        | some m =>
            if m ≤ processedNext then some s.2
            else mockConsumeLoop handler maxMessages fuel s.2 processedNext
        | none => mockConsumeLoop handler maxMessages fuel s.2 processedNext
    else some st

/-- `InMemoryMessageBus.consume` (mock.py:37-60): start the bus if it is
not running, then run the poll loop with the local counter at zero. -/
def mockConsume (handler : Handler) (maxMessages : Option Nat)
    (fuel : Nat) (st : SysState) : Option SysState :=
  let st0 := if st.busRunning then st else mockStart st
  mockConsumeLoop handler maxMessages fuel st0 0

/-- `InMemoryMessageBus.enqueue_input` (mock.py:62-64). -/
def mockEnqueue (st : SysState) (message : Json) (metadata : PyDict) :
    SysState :=
  let payload := match message with
    | Json.str s => s
    | m => dumps m
  { st with inputQueue := st.inputQueue ++ [(payload, metadata)] }

/-!
The worker (`src/kafka_bus/worker.py`, `KafkaWorker`) over the mock bus.
-/

/-- `KafkaWorker.stop` (worker.py:59-63): no-op when already stopped,
else set the stopped flag and stop the bus. -/
def workerStop (st : SysState) : SysState :=
  if st.stopped then st else mockStop { st with stopped := true }

/-- `KafkaWorker._handle_message` (worker.py:65-83), closed over a
processor (`build_message_processor()` result, external collaborator,
modelled as `String → PyDict → Option String` — it returns text or
`None`), the output topic and `max_messages`. -/
def workerHandleMessage (jsonLoads : String → Option Json)
    (processor : String → PyDict → Option String)
    (outputTopic : String) (maxMessages : Option Nat) :
    Handler := fun st raw metadata =>
  if st.stopped then (st, Except.ok false)
  else
    let parsed := parsePayload jsonLoads raw
    let merged := mergeMetadata jsonLoads metadata parsed.2 raw
    let resultText := (processor parsed.1 merged).getD ""
    let outputBody := Json.obj [("response_text", Json.str resultText)]
    let st1 := mockProduce st outputTopic outputBody (responseHeaders merged)
    let st2 := { st1 with processed := st1.processed + 1 }
    let st3 :=
      match maxMessages with
      | some m => if m ≤ st2.processed then workerStop st2 else st2
      | none => st2
    (st3, Except.ok true)

/-- `KafkaWorker.run` (worker.py:39-53) over the mock bus: start the
bus, consume, and stop the bus in the `finally` block.  Signal
installation and logging are process-level effects outside the state
model. -/
def workerRun (jsonLoads : String → Option Json)
    (processor : String → PyDict → Option String)
    (outputTopic : String) (maxMessages : Option Nat)
    (fuel : Nat) (st : SysState) : Option SysState :=
  match mockConsume
      (workerHandleMessage jsonLoads processor outputTopic maxMessages)
      none fuel (mockStart st) with
  | none => none
  | some s => some (mockStop s)

/-!
The real transport (`src/kafka_bus/client.py`, `KafkaMessageBus`).

The confluent-kafka `Consumer`/`Producer` objects are external handles;
`KafkaState` records their lifecycle (how many were constructed, whether
`close`/`flush` ran) and the sequence of `consumer.commit(msg)` calls,
which is the observable the manual-commit protocol is about.  `lib`
models whether the `confluent_kafka` import succeeded (client.py:11-18);
when it failed, `start` raises `ImportError` (client.py:117-121),
modelled as `Except.error`.
-/

structure KafkaState where
  running : Bool
  hasConsumer : Bool
  hasProducer : Bool
  consumersCreated : Nat
  producersCreated : Nat
  subscriptions : Nat
  consumerClosed : Bool
  producerFlushed : Bool
  committed : List (String × Int × Int)
  errorLog : List (String × String)

/-- One result of `consumer.poll(timeout)`: `None`, or a message that
may carry a transport error (`msg.error()`), a possibly-absent value,
and its position and headers. -/
structure KMsg where
  hasError : Bool
  value : Option String
  topic : String
  partition : Int
  offset : Int
  key : Option String
  headers : List (String × String)

abbrev KHandler :=
  KafkaState → String → PyDict → KafkaState × Except String Bool

/-- `KafkaMessageBus.start` (client.py:114-131): no-op while running;
raises when the client library is unavailable; otherwise constructs one
consumer and one producer and subscribes to the input topic. -/
def kafkaStart (lib : Bool) (st : KafkaState) : Except String KafkaState :=
  if st.running then Except.ok st
  else if lib then
    Except.ok
      { st with
        running := true
        hasConsumer := true
        hasProducer := true
        consumersCreated := st.consumersCreated + 1
        producersCreated := st.producersCreated + 1
        subscriptions := st.subscriptions + 1 }
  else
    Except.error
      "confluent-kafka is required for KafkaMessageBus. Install it or switch MESSAGE_BUS_MODE=mock."

/-- `KafkaMessageBus.stop` (client.py:133-147): no-op while not running;
otherwise clear the running flag, close the consumer if present and
flush the producer if present (close/flush exceptions are caught and
logged in the source). -/
def kafkaStop (st : KafkaState) : KafkaState :=
  if st.running then
    { st with
      running := false
      consumerClosed := st.consumerClosed || st.hasConsumer
      producerFlushed := st.producerFlushed || st.hasProducer }
  else st

/-- `self.consumer.commit(msg)` (client.py:202): record the synchronous
commit call for the message's topic/partition/offset. -/
def kafkaCommit (st : KafkaState) (msg : KMsg) : KafkaState :=
  { st with committed := st.committed ++ [(msg.topic, msg.partition, msg.offset)] }

/-- `KafkaMessageBus._build_metadata` (client.py:219-230): header values
arrive already decoded to text here; duplicate header keys resolve to
the last occurrence, as repeated dict assignment does. -/
def buildMetadata (msg : KMsg) : PyDict :=
  [("topic", Json.str msg.topic),
   ("partition", Json.num msg.partition),
   ("offset", Json.num msg.offset),
   ("key", match msg.key with
           | some k => Json.str k
           | none => Json.null),
   ("headers",
     Json.obj (msg.headers.foldl
       (fun acc kv => dictSet acc kv.1 (Json.str kv.2)) []))]

/-- One iteration of the `while` body of `KafkaMessageBus.consume`
(client.py:178-206): skip `None` polls, error-bearing messages and
valueless messages; otherwise run the handler and commit exactly when it
returned `True`.  An exception from the handler reaches
`_handle_failure` (client.py:216-217), which logs the error with the
payload; a `False` return logs a warning and commits nothing.  Every
branch falls through to the next poll. -/
def kafkaIter (handler : KHandler) (st : KafkaState) (poll : Option KMsg) :
    KafkaState :=
  match poll with
  | none => st
  | some msg =>
    if msg.hasError then st
    else
      match msg.value with
      | none => st
      | some raw =>
        let r := handler st raw (buildMetadata msg)
        match r.2 with
        | Except.ok true => kafkaCommit r.1 msg
        | Except.ok false => r.1
        | Except.error e =>
            { r.1 with errorLog := r.1.errorLog ++ [(e, raw)] }

/-- The `while self._running.is_set()` loop of `KafkaMessageBus.consume`
(client.py:178-208) over a finite prefix of poll results.  When the
running flag is down the loop exits and `self.stop()` runs; `none` means
the loop was still polling when the observed prefix ran out. -/
def kafkaConsumeLoop (handler : KHandler) :
    List (Option KMsg) → KafkaState → Option KafkaState
  | polls, st =>
    if st.running then
      match polls with
      | [] => none
      | poll :: rest => kafkaConsumeLoop handler rest (kafkaIter handler st poll)
    else some (kafkaStop st)

/-- `KafkaMessageBus.consume` entry (client.py:173-176): start the bus
first when it is not running. -/
def kafkaConsume (lib : Bool) (handler : KHandler)
    (polls : List (Option KMsg)) (st : KafkaState) :
    Except String (Option KafkaState) :=
  match (if st.running then Except.ok st else kafkaStart lib st) with
  | Except.error e => Except.error e
  | Except.ok st0 => Except.ok (kafkaConsumeLoop handler polls st0)

/-!
Concrete instances used by the closed theorems and witnesses below.
-/

/-- A `json.loads` behaviour under which no payload parses (all inputs
raise `JSONDecodeError`); the round-trip scenarios feed plain text. -/
def jlNone : String → Option Json := fun _ => none

/-- A processor that always answers `"hello"`. -/
def procHello : String → PyDict → Option String := fun _ _ => some "hello"

/-- A processor that always answers `"ok"`. -/
def procOk : String → PyDict → Option String := fun _ _ => some "ok"

/-- Transport metadata carrying the three round-trip identifiers. -/
def mdRT : PyDict :=
  [("headers", Json.obj
    [("request_id", Json.str "r1"), ("bot_id", Json.str "b1"),
     ("chat_id", Json.str "c1")])]

/-- A running mock bus with an empty input queue and fresh worker. -/
def stEmpty : SysState := ⟨true, [], [], false, 0, []⟩

/-- A fresh (never started) system with two enqueued inbound messages. -/
def stTwoMsgs : SysState := ⟨false, [("hi1", []), ("hi2", [])], [], false, 0, []⟩

/-- A mock handler that reports success and leaves the state alone. -/
def hOkTrue : Handler := fun s _ _ => (s, Except.ok true)

/-- A mock handler that reports failure and leaves the state alone. -/
def hOkFalse : Handler := fun s _ _ => (s, Except.ok false)

/-- A mock handler that raises. -/
def hRaise : Handler := fun s _ _ => (s, Except.error "boom")

/-- A Kafka handler that reports success and leaves the state alone. -/
def hKTrue : KHandler := fun s _ _ => (s, Except.ok true)

/-- A never-started Kafka bus state. -/
def kFresh : KafkaState := ⟨false, false, false, 0, 0, 0, false, false, [], []⟩

/-- A Kafka bus state right after a successful `start`. -/
def kStarted : KafkaState := ⟨true, true, true, 1, 1, 1, false, false, [], []⟩

/-- A well-formed polled message carrying the payload `"p"`. -/
def kMsg0 : KMsg := ⟨false, some "p", "t", 0, 5, none, []⟩

/-- A Kafka handler that succeeds and clears the running flag, the way
`KafkaWorker._handle_message` does through `stop()` when the
`max_messages` bound is reached. -/
def hKStop : KHandler := fun s _ _ => ({ s with running := false }, Except.ok true)

/-- The state in which `consume` returns when `hKStop` handles `kMsg0`
on a freshly started bus. -/
def kAfterStop : KafkaState := ⟨false, true, true, 1, 1, 1, false, false, [("t", 0, 5)], []⟩

/-- Transport metadata whose `bot_id` header is the empty string. -/
def mdEmptyBot : PyDict := [("headers", Json.obj [("bot_id", Json.str "")])]

/-- Embedded payload metadata carrying `user_id="y"`. -/
def pmUser : PyDict := [("user_id", Json.str "y")]

/-!
Theorems for the claims, in claim order.
-/

/-- C5: the payload parse step is total — the embedding of
`_parse_payload` is a total Lean function, and whenever `json.loads`
fails (`jsonLoads raw = none`, the `JSONDecodeError` case, e.g. on
`"not json \x7b"`), the returned message text is the raw input string
and the returned embedded metadata is the empty dict. -/
theorem parse_payload_total_fallback (jsonLoads : String → Option Json)
    (raw : String) (hfail : jsonLoads raw = none) :
    parsePayload jsonLoads raw = (raw, []) := by
  unfold parsePayload
  rw [hfail]

theorem parse_payload_total_fallback_witness :
    jlNone "not json \x7b" = none ∧
      parsePayload jlNone "not json \x7b" = ("not json \x7b", []) :=
  ⟨rfl, parse_payload_total_fallback jlNone "not json \x7b" rfl⟩

/-- C3: with inbound transport headers `request_id="r1"`, `bot_id="b1"`,
`chat_id="c1"` and a handler returning `"hello"`, `_handle_message`
produces exactly one message, to the configured output topic, whose
payload is the serialized JSON object with the single field
`response_text="hello"` and whose headers are exactly the three
identifiers (identifiers that are `None` in the merged context would be
omitted by `responseHeaders`); the handler result is `True`. -/
theorem round_trip_identifiers :
    workerHandleMessage jlNone procHello "out" none stEmpty "hi" mdRT =
      ({ stEmpty with
          topics := [("out",
            [("\x7b\"response_text\": \"hello\"\x7d",
              [("request_id", Json.str "r1"), ("bot_id", Json.str "b1"),
               ("chat_id", Json.str "c1")])])],
          processed := 1 },
        Except.ok true) := by
  rfl

/-- C7: after `KafkaWorker.stop()` has run, `_handle_message` returns
`False` immediately for every message, leaves the whole state unchanged
(in particular no message is produced), and the result does not depend
on the processor — the handler is not invoked. -/
theorem no_progress_after_stop (jsonLoads : String → Option Json)
    (processor : String → PyDict → Option String)
    (outputTopic : String) (maxMessages : Option Nat)
    (st : SysState) (raw : String) (metadata : PyDict) :
    workerHandleMessage jsonLoads processor outputTopic maxMessages
        (workerStop st) raw metadata =
      (workerStop st, Except.ok false) := by
  have hs : (workerStop st).stopped = true := by
    unfold workerStop mockStop
    by_cases h : st.stopped <;> simp [h]
  unfold workerHandleMessage
  rw [hs]
  simp

/-- C8: running a worker with `max_messages=1` over the mock bus with
two enqueued inbound messages produces exactly one output message, on
the output topic, and ends with the worker stopped and the bus stopped
(the second message is still queued, unprocessed). -/
theorem bounded_run_one_message :
    workerRun jlNone procOk "out" (some 1) 3 stTwoMsgs =
      some { busRunning := false,
             inputQueue := [("hi2", [])],
             topics := [("out", [("\x7b\"response_text\": \"ok\"\x7d", [])])],
             stopped := true,
             processed := 1,
             errorLog := [] } := by
  rfl

/-- C2: one iteration of the mock consume loop, on a running bus whose
queue holds the message `(p, md)` followed by `rest`.  The handler is
invoked on the state with the message already popped.  If it returns
`True` the loop continues on the handler's state unchanged — the
message is gone from the queue and the loop never re-appends it; if it
returns `False`, or raises, the loop re-appends the message at the tail
of the input queue (after logging the error with the payload in the
raise case) and continues. -/
theorem mock_requeue_policy (h : Handler) (p : String) (md : PyDict)
    (rest : List (String × PyDict)) (topics : List (String × List MockEntry))
    (stopped : Bool) (wproc : Nat) (elog : List (String × String))
    (fuel loopProc : Nat) (st1 st2 : SysState) :
    (mockConsumeLoop h none (fuel + 1)
        ⟨true, (p, md) :: rest, topics, stopped, wproc, elog⟩ loopProc =
      (let s := mockStep h ⟨true, rest, topics, stopped, wproc, elog⟩ p md
       mockConsumeLoop h none fuel s.2
         (if s.1 then loopProc + 1 else loopProc)))
    ∧ (h st1 p md = (st2, Except.ok true) →
        mockStep h st1 p md = (true, st2))
    ∧ (h st1 p md = (st2, Except.ok false) →
        mockStep h st1 p md =
          (false, { st2 with inputQueue := st2.inputQueue ++ [(p, md)] }))
    ∧ (∀ e, h st1 p md = (st2, Except.error e) →
        mockStep h st1 p md =
          (false, { st2 with
                      inputQueue := st2.inputQueue ++ [(p, md)],
                      errorLog := st2.errorLog ++ [(e, p)] })) := by
  refine ⟨rfl, fun heq => ?_, fun heq => ?_, fun e heq => ?_⟩ <;>
    simp [mockStep, heq]

theorem mock_requeue_policy_witness :
    mockStep hOkTrue stEmpty "m" [] = (true, stEmpty) :=
  (mock_requeue_policy hOkTrue "m" [] [] [] false 0 [] 0 0
    stEmpty stEmpty).2.1 rfl

/-- C1: the per-message behaviour of the real Kafka consume loop, on a
running bus, for a poll that yielded an error-free message with a
payload.  The loop always continues with the next poll on the state
`kafkaIter` computes; `kafkaIter` commits the message's
topic/partition/offset exactly when the handler returned `True`,
commits nothing when it returned `False`, and on a handler exception
commits nothing, records the error together with the payload
(`_handle_failure`), and still falls through to the next poll — a
single message's failure never terminates the loop. -/
theorem kafka_commit_policy (h : KHandler) (st st2 : KafkaState)
    (msg : KMsg) (rest : List (Option KMsg)) (raw : String)
    (hrun : st.running = true) (herr : msg.hasError = false)
    (hval : msg.value = some raw) :
    (kafkaConsumeLoop h (some msg :: rest) st =
        kafkaConsumeLoop h rest (kafkaIter h st (some msg)))
    ∧ (h st raw (buildMetadata msg) = (st2, Except.ok true) →
        kafkaIter h st (some msg) = kafkaCommit st2 msg
        ∧ (kafkaCommit st2 msg).committed =
            st2.committed ++ [(msg.topic, msg.partition, msg.offset)])
    ∧ (h st raw (buildMetadata msg) = (st2, Except.ok false) →
        kafkaIter h st (some msg) = st2)
    ∧ (∀ e, h st raw (buildMetadata msg) = (st2, Except.error e) →
        kafkaIter h st (some msg) =
          { st2 with errorLog := st2.errorLog ++ [(e, raw)] }) := by
  refine ⟨?_, fun heq => ⟨?_, rfl⟩, fun heq => ?_, fun e heq => ?_⟩
  · conv_lhs => rw [kafkaConsumeLoop]
    rw [hrun]
    simp
  all_goals
    simp [kafkaIter, herr, hval, heq]

theorem kafka_commit_policy_witness :
    kafkaIter hKTrue kStarted (some kMsg0) = kafkaCommit kStarted kMsg0 ∧
      (kafkaCommit kStarted kMsg0).committed = [("t", 0, 5)] :=
  (kafka_commit_policy hKTrue kStarted kStarted kMsg0 [] "p"
    rfl rfl rfl).2.1 rfl

/-- Helper: `KafkaMessageBus.stop` always leaves the running flag down
(it clears it, or it was already down). -/
theorem kafkaStop_running (st : KafkaState) : (kafkaStop st).running = false := by
  unfold kafkaStop
  by_cases hr : st.running <;> simp [hr]

/-- Helper: whenever the Kafka consume loop returns, the running flag
is down — the loop only exits after observing the flag down, and then
runs `self.stop()`. -/
theorem kafkaConsumeLoop_stops (h : KHandler) :
    ∀ (polls : List (Option KMsg)) (st s : KafkaState),
      kafkaConsumeLoop h polls st = some s → s.running = false := by
  intro polls
  induction polls with
  | nil =>
    intro st s hret
    rw [kafkaConsumeLoop] at hret
    by_cases hr : st.running
    · simp [hr] at hret
    · simp [hr] at hret
      rw [← hret]
      exact kafkaStop_running st
  | cons poll rest ih =>
    intro st s hret
    rw [kafkaConsumeLoop] at hret
    by_cases hr : st.running
    · simp [hr] at hret
      exact ih _ s hret
    · simp [hr] at hret
      rw [← hret]
      exact kafkaStop_running st

/-- C4 (amended): for the real Kafka transport, `consume` returns only
when the bus has transitioned to `Stopped` — whenever it returns a
final state, that state's running flag is down.  (The in-memory mock's
`consume` does not share this property: see the counterexample.) -/
theorem kafka_consume_returns_only_stopped (lib : Bool) (h : KHandler)
    (polls : List (Option KMsg)) (st s : KafkaState)
    (hret : kafkaConsume lib h polls st = Except.ok (some s)) :
    s.running = false := by
  unfold kafkaConsume at hret
  cases hst : (if st.running then Except.ok st else kafkaStart lib st) with
  | error e =>
    rw [hst] at hret
    simp at hret
  | ok st0 =>
    rw [hst] at hret
    simp at hret
    exact kafkaConsumeLoop_stops h polls st0 s hret

theorem kafka_consume_returns_only_stopped_witness :
    kAfterStop.running = false :=
  kafka_consume_returns_only_stopped true hKStop [some kMsg0] kFresh
    kAfterStop rfl

/-- C4 (counterexample to the claim as stated): the in-memory mock
bus's `consume` can return while the bus is still `Running` — with an
empty input queue the loop exits at once and no `stop()` runs, so
`consume` returns a state whose running flag is still up. -/
theorem mock_consume_returns_while_running :
    mockConsume hOkTrue none 1 stEmpty = some stEmpty ∧
      stEmpty.busRunning = true :=
  ⟨rfl, rfl⟩

/-- C9: lifecycle idempotence.  For the Kafka bus, a second `start`
after a successful one returns the very same state (no new
consumer/producer is constructed and no error is raised), and `stop` is
idempotent (the second call closes and flushes nothing further); for
the in-memory bus, `start` and `stop` are idempotent flag writes. -/
theorem bus_lifecycle_idempotent (lib : Bool) (st st1 : KafkaState)
    (ms : SysState) (hstart : kafkaStart lib st = Except.ok st1) :
    kafkaStart lib st1 = Except.ok st1
    ∧ kafkaStop (kafkaStop st) = kafkaStop st
    ∧ mockStart (mockStart ms) = mockStart ms
    ∧ mockStop (mockStop ms) = mockStop ms := by
  refine ⟨?_, ?_, rfl, rfl⟩
  · have h1 : st1.running = true := by
      unfold kafkaStart at hstart
      by_cases hr : st.running
      · simp [hr] at hstart
        rw [← hstart]
        exact hr
      · by_cases hl : lib
        · simp [hr, hl] at hstart
          rw [← hstart]
        · simp [hr, hl] at hstart
    unfold kafkaStart
    rw [h1]
    simp
  · unfold kafkaStop
    by_cases hr : st.running <;> simp [hr]

theorem bus_lifecycle_idempotent_witness :
    kafkaStart true kStarted = Except.ok kStarted ∧
      kafkaStop (kafkaStop kFresh) = kafkaStop kFresh ∧
      mockStart (mockStart stEmpty) = mockStart stEmpty ∧
      mockStop (mockStop stEmpty) = mockStop stEmpty :=
  bus_lifecycle_idempotent true kFresh kStarted stEmpty rfl


/-- Helper evaluation facts about truthiness, kept as rewrite rules so
hypotheses about `pyTruthy` of an abstract value still apply. -/
theorem pyTruthy_null : pyTruthy Json.null = false := rfl

theorem pyTruthy_obj_nil : pyTruthy (Json.obj []) = false := rfl

theorem pyTruthy_obj_cons (kv : String × Json) (l : List (String × Json)) :
    pyTruthy (Json.obj (kv :: l)) = true := rfl

/-- C6 (counterexample to the claim as stated): with the transport
header `bot_id=""` (an empty string, present) and embedded payload
metadata `user_id="y"`, the merged context's `user_id` is `"y"`, not
the header value `""` — `bot_id or merged.get('user_id')` discards a
falsy header value, so unconditional header precedence fails. -/
theorem header_precedence_counterexample :
    dictGet (mergeMetadata jlNone mdEmptyBot pmUser "raw") "user_id" =
      some (Json.str "y")
    ∧ Json.str "y" ≠ Json.str "" := by
  refine ⟨rfl, ?_⟩
  simp

/-- C6 (amended): header precedence for the aliased identifiers holds
for truthy header values — with headers `bot_id=X` and `chat_id=C`,
both truthy, and embedded metadata `user_id=Y`, `session_id=S`, the
merged context's `user_id` is `X` and its `session_id` is `C`. -/
theorem header_precedence_truthy (jsonLoads : String → Option Json)
    (X C Y S : Json) (raw : String)
    (hX : pyTruthy X = true) (hC : pyTruthy C = true) :
    dictGet (mergeMetadata jsonLoads
        [("headers", Json.obj [("bot_id", X), ("chat_id", C)])]
        [("user_id", Y), ("session_id", S)] raw) "user_id" = some X
    ∧ dictGet (mergeMetadata jsonLoads
        [("headers", Json.obj [("bot_id", X), ("chat_id", C)])]
        [("user_id", Y), ("session_id", S)] raw) "session_id" = some C := by
  constructor <;>
    simp [mergeMetadata, dictUpdate, dictGet, dictSet, pyGet, pyOr,
      pyTruthy_null, pyTruthy_obj_nil, pyTruthy_obj_cons, hX, hC]

theorem header_precedence_truthy_witness :
    dictGet (mergeMetadata jlNone
        [("headers", Json.obj [("bot_id", Json.str "b1"), ("chat_id", Json.str "c1")])]
        [("user_id", Json.str "y"), ("session_id", Json.str "s")] "r")
      "user_id" = some (Json.str "b1") :=
  (header_precedence_truthy jlNone (Json.str "b1") (Json.str "c1")
    (Json.str "y") (Json.str "s") "r" rfl rfl).1

/-- C10: when the `bot_id` header is falsy (absent — `.get` yields
`None` — or literally `None`, or the empty string), the merged
context's `user_id` falls back to the embedded metadata's `user_id`,
and likewise `session_id` falls back when `chat_id` is falsy; the same
holds when the headers dict carries no such keys at all. -/
theorem user_id_fallback_falsy (jsonLoads : String → Option Json)
    (v w Y S : Json) (raw : String)
    (hv : pyTruthy v = false) (hw : pyTruthy w = false) :
    (dictGet (mergeMetadata jsonLoads
        [("headers", Json.obj [("bot_id", v), ("chat_id", w)])]
        [("user_id", Y), ("session_id", S)] raw) "user_id" = some Y
    ∧ dictGet (mergeMetadata jsonLoads
        [("headers", Json.obj [("bot_id", v), ("chat_id", w)])]
        [("user_id", Y), ("session_id", S)] raw) "session_id" = some S)
    ∧ (dictGet (mergeMetadata jsonLoads
        [("headers", Json.obj [])]
        [("user_id", Y), ("session_id", S)] raw) "user_id" = some Y
    ∧ dictGet (mergeMetadata jsonLoads
        [("headers", Json.obj [])]
        [("user_id", Y), ("session_id", S)] raw) "session_id" = some S) := by
  refine ⟨⟨?_, ?_⟩, ⟨?_, ?_⟩⟩ <;>
    simp [mergeMetadata, dictUpdate, dictGet, dictSet, pyGet, pyOr,
      pyTruthy_null, pyTruthy_obj_nil, pyTruthy_obj_cons, hv, hw]

theorem user_id_fallback_falsy_witness :
    dictGet (mergeMetadata jlNone
        [("headers", Json.obj [("bot_id", Json.null), ("chat_id", Json.str "")])]
        [("user_id", Json.str "u1"), ("session_id", Json.str "s1")] "x")
      "user_id" = some (Json.str "u1") :=
  ((user_id_fallback_falsy jlNone Json.null (Json.str "")
    (Json.str "u1") (Json.str "s1") "x" rfl rfl).1).1
